import Mathlib

/-!
Shallow embedding of `mqtt_exporter.py` (poggenpower/mqtt_exporter).

Python dictionaries that map label names to string values are embedded as
association lists `List (String × String)` with unique keys: lookup returns
the first binding, and assignment replaces an existing binding in place
(keeping its position) or appends a new binding at the end, matching the
insertion-order semantics of Python dicts.

Code that can raise an exception (KeyError on a missing dict key, ValueError
from `float(...)` or tuple unpacking, NameError on an unbound local) is
embedded with `Option`: `none` is a raised exception, except where the
source explicitly catches it (the `float` conversion in `_update_metrics`,
whose `except ValueError: continue` is embedded directly).

The calls into Python's `re` module made by the relabeling pipeline use
configuration-supplied regexes, so `re.match`/`re.sub` are passed in as
function parameters `rm : String → String → Bool` (regex, string ↦ match
succeeds) and `rs : String → String → String → String`
(regex, replacement, string ↦ substitution result).  The topic matcher
builds its regex itself from the topic pattern, so for it the generated
regex's semantics are embedded concretely (`matchToks` below).

`time.time()` is external input; the epoch-millisecond value
`int(round(time.time() * 1000))` is passed in as a parameter `now : ℤ`.
-/

/-- Result of Python `float(...)`: a finite value, an infinity, or nan.
A finite value `num m e` denotes the exact decimal `m * 10 ^ e`
(IEEE-754 rounding is not modelled, no claim depends on it; the
representation is not canonical across different source strings, but no
claim compares floats obtained from different sources). -/
inductive PyFloat where
  | num : ℤ → ℤ → PyFloat
  | infinity : Bool → PyFloat
  | nan : PyFloat
deriving DecidableEq

/-- A Python dict from label names to string values, as an assoc list. -/
abbrev Labels := List (String × String)

/-- Python dict lookup `d[k]`: first binding for `k`, `none` = KeyError. -/
def dget {α : Type} (d : List (String × α)) (k : String) : Option α :=
  match d with
  | [] => none
  | (k2, v) :: rest => if k2 == k then some v else dget rest k

/-- Python dict assignment `d[k] = v`: replace the binding in place if the
key exists (keeping its position), else append at the end. -/
def dset {α : Type} (d : List (String × α)) (k : String) (v : α) :
    List (String × α) :=
  match d with
  | [] => [(k, v)]
  | (k2, v2) :: rest => if k2 == k then (k, v) :: rest else (k2, v2) :: dset rest k v

/-- Whitespace stripped by Python `float(...)` from both ends of its input. -/
def pyWhitespace (c : Char) : Bool :=
  c == ' ' || c == '\t' || c == '\n' || c == '\r' || c == '\x0b' || c == '\x0c'

/-- Value of a digit string, most significant digit first. -/
def digitsToNat (ds : List Char) : ℕ :=
  ds.foldl (fun acc c => acc * 10 + (c.toNat - 48)) 0

/-- Strip one optional leading sign; returns (isNegative, rest). -/
def parseSign : List Char → Bool × List Char
  | '+' :: rest => (false, rest)
  | '-' :: rest => (true, rest)
  | cs => (false, cs)

/-- Case-insensitive comparison against a fixed lowercase word. -/
def lowerEq (cs : List Char) (w : List Char) : Bool :=
  cs.map Char.toLower == w

/-- Finite part of Python's `float` grammar:
`digits [. digits] [(e|E) [sign] digits]` with at least one digit in the
mantissa, nothing left over; the result is the (mantissa, base-10
exponent) pair of the denoted value.  (PEP-515 underscore grouping is not
modelled; no claim exercises it.) -/
def parseDecimal (cs : List Char) : Option (ℤ × ℤ) :=
  let ip := cs.takeWhile Char.isDigit
  let rest1 := cs.dropWhile Char.isDigit
  let fp :=
    match rest1 with
    | '.' :: r => r.takeWhile Char.isDigit
    | _ => []
  let rest2 :=
    match rest1 with
    | '.' :: r => r.dropWhile Char.isDigit
    | _ => rest1
  if ip.isEmpty && fp.isEmpty then none
  else
    let m : ℤ := (digitsToNat (ip ++ fp) : ℤ)
    let e0 : ℤ := -(fp.length : ℤ)
    match rest2 with
    | [] => some (m, e0)
    | e :: r =>
      if e == 'e' || e == 'E' then
        let sr := parseSign r
        let ed := sr.2.takeWhile Char.isDigit
        let r3 := sr.2.dropWhile Char.isDigit
        if ed.isEmpty || !r3.isEmpty then none
        else
          let ex : ℤ := if sr.1 then -(digitsToNat ed : ℤ) else (digitsToNat ed : ℤ)
          some (m, e0 + ex)
      else none

/-- Python `float(s)`: strip whitespace, optional sign, then either a
decimal literal or (case-insensitively) `inf`/`infinity`/`nan`.
`none` models the raised ValueError. -/
def pythonFloat (s : String) : Option PyFloat :=
  let cs := ((s.data.dropWhile pyWhitespace).reverse.dropWhile pyWhitespace).reverse
  let sg := parseSign cs
  if lowerEq sg.2 ['i', 'n', 'f'] || lowerEq sg.2 ['i', 'n', 'f', 'i', 'n', 'i', 't', 'y'] then
    some (PyFloat.infinity sg.1)
  else if lowerEq sg.2 ['n', 'a', 'n'] then
    some PyFloat.nan
  else
    (parseDecimal sg.2).map (fun me =>
      PyFloat.num (if sg.1 then -me.1 else me.1) me.2)

/-- Python `s.replace(',', '.')` (the comma decimal-separator
normalisation in `_update_metrics`), written over the character list. -/
def comma_to_dot (s : String) : String :=
  String.mk (s.data.map (fun c => if c == ',' then '.' else c))

/-- One entry of a `label_configs` list after
`parse_and_validate_metric_config` filled in the defaults
(`separator := ";"`, `regex := "^(.*)$"`, `replacement := "\\1"`,
`action := "replace"`).  `target_label` is only validated (and only read)
for `action = "replace"`; for other actions the field is unused. -/
structure LabelConfig where
  source_labels : List String
  separator : String
  regex : String
  replacement : String
  action : String
  target_label : String := ""
deriving DecidableEq

/-- The join computed by both `_label_config_match` and
`_label_config_rename`:
`label_config['separator'].join([labels[x] for x in label_config['source_labels']])`.
`none` is the KeyError raised when a source label is absent. -/
def join_source_labels (lc : LabelConfig) (labels : Labels) : Option String :=
  (lc.source_labels.mapM (fun x => dget labels x)).map
    (fun vs => String.intercalate lc.separator vs)

/-- `_label_config_match`: join the source labels, match against the rule's
regex; `keep` returns whether it matched, `drop` returns whether it did
not, and any other action returns `False` (the metric is dropped). -/
def label_config_match (rm : String → String → Bool) (lc : LabelConfig)
    (labels : Labels) : Option Bool :=
  (join_source_labels lc labels).map (fun source =>
    let m := rm lc.regex source
    if lc.action = "keep" then m
    else if lc.action = "drop" then !m
    else false)

/-- `_label_config_rename`: if the joined source value matches the rule's
regex, set `target_label` to the regex substitution of it; otherwise leave
the labels untouched. -/
def label_config_rename (rm : String → String → Bool)
    (rs : String → String → String → String) (lc : LabelConfig)
    (labels : Labels) : Option Labels :=
  (join_source_labels lc labels).map (fun source =>
    if rm lc.regex source then
      dset labels lc.target_label (rs lc.regex lc.replacement source)
    else labels)

/-- `_apply_label_config`: apply the rules in order; a `replace` rule
rewrites the labels and processing continues, any other rule consults
`_label_config_match` and a `false` answer stops processing with the
message rejected.  The returned pair is (accepted, labels as mutated so
far). -/
def apply_label_config (rm : String → String → Bool)
    (rs : String → String → String → String) :
    Labels → List LabelConfig → Option (Bool × Labels)
  | labels, [] => some (true, labels)
  | labels, lc :: rest =>
    if lc.action = "replace" then
      (label_config_rename rm rs lc labels).bind (fun labels2 =>
        apply_label_config rm rs labels2 rest)
    else
      (label_config_match rm lc labels).bind (fun keep =>
        if keep then apply_label_config rm rs labels rest
        else some (false, labels))

/-- One token of the regex `_topic_matches` builds:
`re.escape(topic1).replace('/\\#', '.*$').replace('\\+', '[^/]+')`.
A `+` becomes `[^/]+`, the two-character sequence `/#` becomes `.*$`, and
every other character becomes (an escaped) literal. -/
inductive MqttTok where
  | lit : Char → MqttTok
  | plus : MqttTok
  | hash : MqttTok
deriving DecidableEq

/-- Tokenisation of the pattern along the two `replace` calls above (the
two replaced substrings are disjoint, so replacement order is
irrelevant). -/
def tokenizeTopic : List Char → List MqttTok
  | [] => []
  | '+' :: rest => MqttTok.plus :: tokenizeTopic rest
  | '/' :: '#' :: rest => MqttTok.hash :: tokenizeTopic rest
  | c :: rest => MqttTok.lit c :: tokenizeTopic rest

/-- Backtracking matcher for the generated regex, applied with
`re.match`: anchored at the start of the subject and NOT at its end, so an
empty token list accepts any remainder.  `lit c` consumes exactly `c`;
`plus` (for `[^/]+`) consumes one or more non-`/` characters, trying every
split; `hash` (for `.*$`) consumes the whole remainder, after which any
further tokens must match the empty string.  `fuel` only bounds the
recursion depth; every recursive call decreases `ts.length + cs.length`,
so `ts.length + cs.length + 1` fuel is always enough. -/
def matchToks (fuel : ℕ) (ts : List MqttTok) (cs : List Char) : Bool :=
  match fuel with
  | 0 => false
  | fuel + 1 =>
    match ts, cs with
    | [], _ => true
    | MqttTok.lit c :: ts2, d :: cs2 => c == d && matchToks fuel ts2 cs2
    | MqttTok.lit _ :: _, [] => false
    | MqttTok.hash :: ts2, _ => matchToks fuel ts2 []
    | MqttTok.plus :: ts2, d :: cs2 =>
      d != '/' && (matchToks fuel ts2 cs2 || matchToks fuel (MqttTok.plus :: ts2) cs2)
    | MqttTok.plus :: _, [] => false

/-- `_topic_matches`: equal strings always match; without wildcards an
unequal pair never matches; otherwise the compiled regex is matched
against the start of `topic2`. -/
def topic_matches (topic1 topic2 : String) : Bool :=
  if topic1 == topic2 then true
  else if !(topic1.data.contains '+') && !(topic1.data.contains '#') then false
  else
    let ts := tokenizeTopic topic1.data
    matchToks (ts.length + topic2.data.length + 1) ts topic2.data

/-- The comparison used by `sorted(..., key=operator.itemgetter(0))`:
label names compared as Python compares strings, lexicographically by
code point (the lexicographic order on the character lists). -/
def labelLE (p q : String × String) : Prop := p.1.data ≤ q.1.data

instance : DecidableRel labelLE := fun p q =>
  inferInstanceAs (Decidable (p.1.data ≤ q.1.data))

instance : IsTotal (String × String) labelLE :=
  ⟨fun a b => le_total a.1.data b.1.data⟩

instance : IsTrans (String × String) labelLE :=
  ⟨fun _ _ _ h1 h2 => le_trans h1 h2⟩

/-- `_get_sorted_tuple_list`: the dict's items sorted by label name.
Python's sort is stable, but a dict never holds two bindings for the same
key, so any sort by name produces the same list; insertion sort is used
here. -/
def get_sorted_tuple_list (source : Labels) : Labels :=
  List.insertionSort labelLE source

/-- The store key built in `_export_to_prometheus`:
`':'.join([''.join(label_names), ''.join(label_values)])` over the sorted
tuple list. -/
def series_key (labels : Labels) : String :=
  let sorted := get_sorted_tuple_list labels
  String.intercalate ":" [String.join (sorted.map (fun p => p.1)),
                          String.join (sorted.map (fun p => p.2))]

/-- One stored series entry: the inner dict
`{'name': ..., 'label_values': ..., 'value': ...}` kept under a series
key in `metric['prometheus_metric']`. -/
structure PromEntry where
  name : String
  label_values : List String
  value : PyFloat
deriving DecidableEq

/-- The derived "last received" metric dict created by `_update_metrics`
(`{'name': ..., 'help': ..., 'type': 'gauge'}`), together with the
`label_names` and `prometheus_metric` keys `_export_to_prometheus` adds to
it. -/
structure DerivedDict where
  name : String
  help : String
  type : String
  label_names : Option (List String) := none
  prometheus_metric : List (String × PromEntry) := []
deriving DecidableEq

/-- A metric dict from the parsed configuration (`name`, `help`, `type`,
`topic` are validated as required; `buckets` and `label_configs` are
optional keys), plus the mutable keys the message path adds to it:
`label_names` and `prometheus_metric` (added by `_export_to_prometheus`)
and `derived_metric` (added by `_update_metrics`). -/
structure MetricDict where
  name : String
  help : String
  type : String
  topic : String
  buckets : Option String := none
  label_configs : Option (List LabelConfig) := none
  label_names : Option (List String) := none
  prometheus_metric : List (String × PromEntry) := []
  derived_metric : Option DerivedDict := none
deriving DecidableEq

/-- `_export_to_prometheus` on one store: `labels` is the labels dict
after `value = labels['value']; del labels['value']` split the metric
value off (the callers always separate them this way), `store` is the
current `prometheus_metric` dict.  Returns the new `label_names` and the
new store.  `none` models the ValueError raised by
`label_names, label_values = list(zip(*sorted_labels))` when the labels
dict is empty.  The invalid-`type` branch only emits a log warning and is
behaviourally irrelevant here. -/
def export_to_prometheus (labels : Labels) (name : String) (value : PyFloat)
    (store : List (String × PromEntry)) :
    Option (List String × List (String × PromEntry)) :=
  let sorted := get_sorted_tuple_list labels
  if sorted.isEmpty then none
  else
    some (sorted.map (fun p => p.1),
      dset store (series_key labels)
        { name := name, label_values := sorted.map (fun p => p.2), value := value })

/-- A message as delivered to `_on_message`: the topic string and the
payload already decoded from UTF-8 (as done by `str(msg.payload, 'utf-8')`;
decode errors are out of scope). -/
structure Msg where
  topic : String
  payload : String
deriving DecidableEq

/-- The labels dict `_update_metrics` builds for one metric. -/
def initial_labels (m : MetricDict) (msg : Msg) : Labels :=
  [("__topic__", m.topic), ("__msg_topic__", msg.topic), ("__value__", msg.payload)]

/-- The relabeling stage of `_update_metrics` for one metric: apply
`label_configs` when the key is present, otherwise accept with the initial
labels unchanged. -/
def pipeline_result (rm : String → String → Bool)
    (rs : String → String → String → String) (m : MetricDict) (msg : Msg) :
    Option (Bool × Labels) :=
  match m.label_configs with
  | some lcs => apply_label_config rm rs (initial_labels m msg) lcs
  | none => some (true, initial_labels m msg)

/-- The single-quote character, for building the derived metric's help
text. -/
def squote : String := String.singleton (Char.ofNat 39)

/-- The dict `_update_metrics` installs with
`metric.setdefault('derived_metric', {...})` on first use. -/
def derived_default (m : MetricDict) : DerivedDict :=
  { name := m.name ++ "_last_received",
    help := "Last received message for " ++ squote ++ m.name ++ squote,
    type := "gauge" }

/-- The labels dict handed to `_export_to_prometheus` for the metric
itself, minus its `value` binding (which carries the parsed float and is
deleted again inside `_export_to_prometheus` before the key is built):
`finalize_labels` sets `value` and `topic` and strips the remaining
`__`-prefixed labels.  `__topic__` is always present: it is set by
`_update_metrics` and no label is ever deleted.  The net dict content is
the labels with `topic` set and all `__`-prefixed names and `value`
removed; the later sort makes binding order irrelevant anyway. -/
def export_labels (labels : Labels) : Labels :=
  (dset labels "topic" ((dget labels "__topic__").getD "")).filter
    (fun p => !(List.isPrefixOf ['_', '_'] p.1.data) && p.1 != "value")

/-- The body of `_update_metrics` for one metric dict `m`: build the
initial labels, run the relabel pipeline (rejection leaves `m` untouched,
`continue`), coerce `__value__` to a float (ValueError leaves `m`
untouched, `continue`), finalize the labels, install the derived metric
dict with `setdefault`, and export both the metric and its derived
sibling.  `now` is `int(round(time.time() * 1000))`. -/
def update_metric (rm : String → String → Bool)
    (rs : String → String → String → String) (now : ℤ) (m : MetricDict)
    (msg : Msg) : Option MetricDict :=
  (pipeline_result rm rs m msg).bind (fun r =>
    if !r.1 then some m
    else
      match dget r.2 "__value__" with
      | none => none
      | some raw =>
        match pythonFloat (comma_to_dot raw) with
        | none => some m
        | some v =>
          let d0 := (m.derived_metric).getD (derived_default m)
          (export_to_prometheus (export_labels r.2) m.name v
              m.prometheus_metric).bind (fun be =>
            (export_to_prometheus [("topic", m.topic)] d0.name
                (PyFloat.num now 0) d0.prometheus_metric).map (fun de =>
              { m with
                  label_names := some be.1,
                  prometheus_metric := be.2,
                  derived_metric := some
                    { d0 with label_names := some de.1,
                              prometheus_metric := de.2 } })))

/-- The fields of a metric dict that `CustomCollector` reads: for a
derived metric dict there is no `buckets` key (so reading it raises
KeyError, modelled by `none`). -/
structure FamSource where
  name : String
  help : String
  type : String
  buckets : Option String
  label_names : Option (List String)
  prometheus_metric : List (String × PromEntry)
deriving DecidableEq

/-- View of a configured metric dict as the collector reads it. -/
def MetricDict.toFamSource (m : MetricDict) : FamSource :=
  { name := m.name, help := m.help, type := m.type, buckets := m.buckets,
    label_names := m.label_names, prometheus_metric := m.prometheus_metric }

/-- View of a derived metric dict as the collector reads it. -/
def DerivedDict.toFamSource (d : DerivedDict) : FamSource :=
  { name := d.name, help := d.help, type := d.type, buckets := none,
    label_names := d.label_names, prometheus_metric := d.prometheus_metric }

/-- The `types` dict of `_get_metrics_by_type`, initialised with one empty
list per entry of `METRIC_TYPES`. -/
structure TypeLists where
  gauge : List FamSource
  counter : List FamSource
  histogram : List FamSource
  summary : List FamSource
deriving DecidableEq

/-- `types[metric['type']].append(metric)`: appends to the matching list,
or raises KeyError (`none`) when the type is not one of the four
`METRIC_TYPES` keys. -/
def addByType (t : TypeLists) (fs : FamSource) : Option TypeLists :=
  if fs.type = "gauge" then some { t with gauge := t.gauge ++ [fs] }
  else if fs.type = "counter" then some { t with counter := t.counter ++ [fs] }
  else if fs.type = "histogram" then some { t with histogram := t.histogram ++ [fs] }
  else if fs.type = "summary" then some { t with summary := t.summary ++ [fs] }
  else none

/-- The metric dicts `_get_metrics_by_type` visits, in iteration order:
for each topic, each metric dict and then (when present) its derived
metric dict. -/
def fam_sources (metrics : List (String × List MetricDict)) : List FamSource :=
  (metrics.map (fun tm => (tm.2.map (fun m =>
      m.toFamSource ::
        (match m.derived_metric with
         | some d => [d.toFamSource]
         | none => []))).flatten)).flatten

/-- `CustomCollector._get_metrics_by_type`. -/
def get_metrics_by_type (metrics : List (String × List MetricDict)) :
    Option TypeLists :=
  (fam_sources metrics).foldlM addByType ⟨[], [], [], []⟩

/-- One metric-family value yielded by `CustomCollector.collect`: the
family class that was constructed (`kind`), its constructor arguments, and
the samples added with `add_metric`. -/
structure Family where
  kind : String
  name : String
  help : String
  labels : List String
  buckets : Option (List String)
  samples : List (List String × PyFloat)
deriving DecidableEq

/-- Family construction plus the `add_metric` loop over
`metric.get('prometheus_metric', {})`.  A missing `label_names` key is an
empty label list: the gauge loop passes the default `[]` itself and the
other loops pass `None`, for which the `prometheus_client` family
constructors substitute `[]`. -/
def mkFamily (kind : String) (buckets : Option (List String))
    (fs : FamSource) : Family :=
  { kind := kind, name := fs.name, help := fs.help,
    labels := fs.label_names.getD [], buckets := buckets,
    samples := fs.prometheus_metric.map (fun p => (p.2.label_values, p.2.value)) }

/-- `CustomCollector.collect`: groups the metric dicts by type and yields
the families in order gauges, counters, histograms, summaries.  The
histogram loop reads `hm['buckets']` (KeyError = `none` when absent),
constructs a `HistogramMetricFamily` `h` and adds the samples to it, but
its yield statement is `yield c` — the loop variable of the counter loop,
so each histogram definition actually yields the LAST counter family
again, or raises NameError (`none`) when no counter family was ever bound.
The summary loop likewise constructs a family `s` (itself a
`HistogramMetricFamily`) but also executes `yield c`. -/
def collect (metrics : List (String × List MetricDict)) :
    Option (List Family) :=
  (get_metrics_by_type metrics).bind (fun t =>
    let gfams := t.gauge.map (fun gm => mkFamily "gauge" none gm)
    let cfams := t.counter.map (fun cm => mkFamily "counter" none cm)
    let lastCounter := cfams.getLast?
    (t.histogram.mapM (fun (hm : FamSource) =>
        match hm.buckets with
        | none => (none : Option Family)
        | some _ => lastCounter)).bind (fun hfams =>
      (t.summary.mapM (fun (_ : FamSource) => lastCounter)).bind (fun sfams =>
        some (gfams ++ cfams ++ hfams ++ sfams))))

/-! ### Concrete sample data used by the witness and evaluation theorems -/

/-- Sample regex semantics: every regex matches every string. -/
def rmTrue : String → String → Bool := fun _ _ => true

/-- Sample regex semantics: no regex matches any string. -/
def rmFalse : String → String → Bool := fun _ _ => false

/-- Sample substitution semantics: the substitution returns the source. -/
def rsId : String → String → String → String := fun _ _ s => s

/-- A configured counter metric with no stored series. -/
def c1Counter : MetricDict :=
  { name := "c1", help := "counter help", type := "counter", topic := "t" }

/-- A configured histogram metric (with buckets) and no stored series. -/
def c1Hist : MetricDict :=
  { name := "h1", help := "hist help", type := "histogram", topic := "t",
    buckets := some "0.1,1" }

/-- The family the collector builds for `c1Counter`. -/
def c1CounterFam : Family :=
  { kind := "counter", name := "c1", help := "counter help", labels := [],
    buckets := none, samples := [] }

/-- A configured metric whose declared type is not one of the four
`METRIC_TYPES`. -/
def wootMetric : MetricDict :=
  { name := "w1", help := "woot help", type := "woot", topic := "t" }

/-- A message carrying the numeric payload `5` on topic `t`. -/
def msg5 : Msg := { topic := "t", payload := "5" }

/-- `wootMetric` after `_update_metrics` processed `msg5` at time 7:
the value was stored (and the derived sibling created) despite the
invalid type. -/
def wootUpdated : MetricDict :=
  { wootMetric with
      label_names := some ["topic"],
      prometheus_metric :=
        [("topic:t", { name := "w1", label_values := ["t"], value := PyFloat.num 5 0 })],
      derived_metric := some
        { name := "w1_last_received",
          help := "Last received message for " ++ squote ++ "w1" ++ squote,
          type := "gauge",
          label_names := some ["topic"],
          prometheus_metric :=
            [("topic:t", { name := "w1_last_received", label_values := ["t"],
                           value := PyFloat.num 7 0 })] } }

/-- A configured gauge metric. -/
def gaugeM : MetricDict :=
  { name := "temp", help := "temperature", type := "gauge", topic := "home/+/temp" }

/-- A message with a non-numeric payload on a matched topic. -/
def msgWarm : Msg := { topic := "home/kitchen/temp", payload := "warm" }

/-- A message with payload `21.5` on a matched topic. -/
def msgNum : Msg := { topic := "home/kitchen/temp", payload := "21.5" }

/-- A sample `keep` rule on `__value__`. -/
def keepLC : LabelConfig :=
  { source_labels := ["__value__"], separator := ";", regex := "^on$",
    replacement := "\\1", action := "keep" }

/-- A sample `drop` rule on `__value__`. -/
def dropLC : LabelConfig :=
  { source_labels := ["__value__"], separator := ";", regex := "^off$",
    replacement := "\\1", action := "drop" }

/-- A sample `replace` rule writing `__msg_topic__` into `sensor`. -/
def replLC : LabelConfig :=
  { source_labels := ["__msg_topic__"], separator := ";", regex := "^(.*)$",
    replacement := "\\1", action := "replace", target_label := "sensor" }

/-- A sample rule with an action outside {replace, keep, drop}. -/
def unsupLC : LabelConfig :=
  { source_labels := ["__value__"], separator := ";", regex := "^(.*)$",
    replacement := "\\1", action := "labelmap" }

/-! ### Helper lemmas -/

/-- Two assignments to the same key collapse to the last one. -/
theorem dset_dset {α : Type} (d : List (String × α)) (k : String) (v1 v2 : α) :
    dset (dset d k v1) k v2 = dset d k v2 := by
  induction d with
  | nil => simp [dset]
  | cons p rest ih =>
    by_cases h : p.1 == k
    · simp [dset, h]
    · simp [dset, h, ih]

/-- Reading back the key just assigned. -/
theorem dget_dset_self {α : Type} (d : List (String × α)) (k : String) (v : α) :
    dget (dset d k v) k = some v := by
  induction d with
  | nil => simp [dset, dget]
  | cons p rest ih =>
    by_cases h : p.1 == k
    · simp [dset, h, dget]
    · simp [dset, h, dget, ih]

/-- A successful lookup is a member of the assoc list. -/
theorem mem_of_dget {α : Type} {d : List (String × α)} {k : String} {v : α}
    (h : dget d k = some v) : (k, v) ∈ d := by
  induction d with
  | nil => simp [dget] at h
  | cons p rest ih =>
    by_cases hk : p.1 == k
    · simp [dget, hk] at h
      have : p = (k, v) := by
        obtain ⟨a, b⟩ := p
        simp at hk
        simp [hk] at h ⊢
        exact h
      simp [this]
    · simp [dget, hk] at h
      exact List.mem_cons_of_mem _ (ih h)

/-- Two sorted label lists that are permutations of each other and have no
duplicate label names are equal.  (`labelLE` compares only names, so it is
not antisymmetric on pairs in general; distinctness of the names supplies
the missing antisymmetry.) -/
theorem sorted_perm_nodup_keys_eq :
    ∀ {l1 l2 : Labels}, l1.Perm l2 → l1.Sorted labelLE → l2.Sorted labelLE →
      (l1.map Prod.fst).Nodup → l1 = l2 := by
  intro l1
  induction l1 with
  | nil =>
    intro l2 hp _ _ _
    exact hp.nil_eq
  | cons a t ih =>
    intro l2 hp hs1 hs2 hnd
    cases l2 with
    | nil => exact absurd hp.eq_nil (List.cons_ne_nil a t)
    | cons b t2 =>
      simp only [List.map_cons, List.nodup_cons] at hnd
      have hmem_a : a ∈ b :: t2 := hp.subset (List.mem_cons_self a t)
      have hmem_b : b ∈ a :: t := hp.symm.subset (List.mem_cons_self b t2)
      have hab : a = b := by
        rcases List.mem_cons.mp hmem_a with h | ha2
        · exact h
        rcases List.mem_cons.mp hmem_b with h | hb2
        · exact h.symm
        have h1 : labelLE a b := (List.sorted_cons.mp hs1).1 b hb2
        have h2 : labelLE b a := (List.sorted_cons.mp hs2).1 a ha2
        have hfst : a.1 = b.1 := by
          have hdata : a.1.data = b.1.data := le_antisymm h1 h2
          cases hx : a.1
          cases hy : b.1
          simp_all
        exact absurd (by rw [hfst]; exact List.mem_map_of_mem Prod.fst hb2) hnd.1
      subst hab
      have ht : t.Perm t2 := hp.cons_inv
      rw [ih ht (List.sorted_cons.mp hs1).2 (List.sorted_cons.mp hs2).2 hnd.2]

/-- Label dicts with identical content sort to the same tuple list. -/
theorem sort_eq_of_perm_nodup {l1 l2 : Labels} (hp : l1.Perm l2)
    (hnd : (l1.map Prod.fst).Nodup) :
    get_sorted_tuple_list l1 = get_sorted_tuple_list l2 := by
  have hperm : (get_sorted_tuple_list l1).Perm (get_sorted_tuple_list l2) :=
    ((List.perm_insertionSort labelLE l1).trans hp).trans
      (List.perm_insertionSort labelLE l2).symm
  have hnd1 : ((get_sorted_tuple_list l1).map Prod.fst).Nodup :=
    ((List.perm_insertionSort labelLE l1).map Prod.fst).nodup_iff.mpr hnd
  exact sorted_perm_nodup_keys_eq hperm
    (List.sorted_insertionSort labelLE l1)
    (List.sorted_insertionSort labelLE l2) hnd1

/-- The labels dict handed to the metric's own export always contains the
binding for `topic`, hence is never empty. -/
theorem export_labels_ne_nil (labels : Labels) : export_labels labels ≠ [] := by
  intro h
  have hmem : ("topic", (dget labels "__topic__").getD "") ∈ export_labels labels := by
    apply List.mem_filter.mpr
    refine ⟨mem_of_dget (dget_dset_self labels "topic" _), ?_⟩
    rfl
  rw [h] at hmem
  exact List.not_mem_nil _ hmem

/-- On a non-empty labels dict `_export_to_prometheus` succeeds and
performs exactly one keyed store assignment. -/
theorem export_eq_of_ne_nil (labels : Labels) (name : String) (value : PyFloat)
    (store : List (String × PromEntry)) (h : labels ≠ []) :
    export_to_prometheus labels name value store =
      some ((get_sorted_tuple_list labels).map (fun p => p.1),
        dset store (series_key labels)
          { name := name,
            label_values := (get_sorted_tuple_list labels).map (fun p => p.2),
            value := value }) := by
  have hemp : ¬ ((get_sorted_tuple_list labels).isEmpty = true) := by
    intro hemp
    rw [List.isEmpty_iff] at hemp
    unfold get_sorted_tuple_list at hemp
    have hp := (List.perm_insertionSort labelLE labels).symm
    rw [hemp] at hp
    exact h hp.eq_nil
  unfold export_to_prometheus
  rw [if_neg hemp]

/-- A pipeline rejection leaves the metric dict unchanged
(`continue` in `_update_metrics`). -/
theorem update_metric_of_rejected (rm : String → String → Bool)
    (rs : String → String → String → String) (now : ℤ) (m : MetricDict)
    (msg : Msg) (l2 : Labels)
    (h : pipeline_result rm rs m msg = some (false, l2)) :
    update_metric rm rs now m msg = some m := by
  unfold update_metric
  rw [h]
  rfl

/-! ### Claim theorems -/

/-- C1: Evaluation of `CustomCollector.collect` on a registry holding one
counter definition and one histogram definition (both with zero stored
entries).  The claim says every definition yields exactly one
metric-family value of the matching kind with that definition's name and
help text, and that zero stored entries yield an empty family rather than
a failed scrape.  The code instead executes `yield c` in the histogram
loop (and in the summary loop), so the histogram definition `h1` yields
the LAST COUNTER family `c1` a second time and no histogram family at
all; and with a histogram definition but no counter definition the loop
variable `c` is unbound, so the scrape raises NameError (`none`) even
though every definition has zero stored entries. -/
theorem collect_histogram_yields_counter :
    collect [("t", [c1Counter, c1Hist])] = some [c1CounterFam, c1CounterFam] ∧
    collect [("t", [c1Hist])] = none := by
  constructor
  · decide
  · decide

/-- C8: the three behaviours of `_topic_matches` named by the claim:
`+` matches exactly one topic level and a trailing `/#` matches any
number of trailing levels. -/
theorem topic_matcher_examples :
    topic_matches "sensors/+/temp" "sensors/kitchen/temp" = true ∧
    topic_matches "sensors/+/temp" "sensors/kitchen/sub/temp" = false ∧
    topic_matches "sensors/#" "sensors/a/b/c" = true := by
  refine ⟨?_, ?_, ?_⟩ <;> decide

/-- C10: the series key is not injective.  `{a: "1", b: "2"}` and
`{ab: "12"}` have different label content but both produce the key
`"ab:12"`, and exporting an update for the second series after the first
overwrites the single shared stored entry (one entry, holding the second
update's data, remains). -/
theorem series_key_not_injective :
    series_key [("a", "1"), ("b", "2")] = "ab:12" ∧
    series_key [("ab", "12")] = "ab:12" ∧
    ([("a", "1"), ("b", "2")] : Labels) ≠ [("ab", "12")] ∧
    (export_to_prometheus [("a", "1"), ("b", "2")] "n1" (PyFloat.num 1 0)
        []).bind
      (fun r => export_to_prometheus [("ab", "12")] "n2" (PyFloat.num 2 0) r.2) =
      some (["ab"],
        [("ab:12", { name := "n2", label_values := ["12"],
                     value := PyFloat.num 2 0 })]) := by
  refine ⟨?_, ?_, ?_, ?_⟩ <;> decide

/-- C9 counterexample: with a definition whose declared type is outside
{gauge, counter, histogram, summary} registered (here after one
successful update), a scrape does not produce an empty or best-effort
family for it: `_get_metrics_by_type` raises KeyError on
`types[metric['type']]`, modelled as `none`, and the whole scrape fails. -/
theorem unknown_type_scrape_fails :
    collect [("t", [wootUpdated])] = none := by
  decide

/-- C9 amended: at export time the unknown metric type only draws a log
warning and `_export_to_prometheus` still stores the update (the full
updated metric dict, including the stored entry and the derived sibling,
is produced); but the next scrape then fails with a KeyError in
`_get_metrics_by_type` instead of producing an empty or best-effort
family. -/
theorem unknown_type_export_proceeds_scrape_fails :
    update_metric rmTrue rsId 7 wootMetric msg5 = some wootUpdated ∧
    collect [("t", [wootUpdated])] = none := by
  constructor
  · decide
  · decide

/-- C2: two accepted updates whose label dicts hold exactly the same
(label name, label value) bindings, assembled in any insertion orders
(`hp`; a dict has no duplicate names, `hnd`), compute the same series key,
and exporting the second after the first leaves the store exactly as
exporting the second alone would: the one shared entry is overwritten, no
second entry is created. -/
theorem series_key_insertion_order_invariant (l1 l2 : Labels)
    (st : List (String × PromEntry)) (n1 n2 : String) (v1 v2 : PyFloat)
    (hp : l1.Perm l2) (hnd : (l1.map Prod.fst).Nodup) :
    series_key l1 = series_key l2 ∧
    (export_to_prometheus l1 n1 v1 st).bind
        (fun r => export_to_prometheus l2 n2 v2 r.2) =
      export_to_prometheus l2 n2 v2 st := by
  have hsort : get_sorted_tuple_list l1 = get_sorted_tuple_list l2 :=
    sort_eq_of_perm_nodup hp hnd
  have hkey : series_key l1 = series_key l2 := by
    unfold series_key
    rw [hsort]
  refine ⟨hkey, ?_⟩
  by_cases hnil : l1 = []
  · subst hnil
    have hnil2 : l2 = [] := hp.nil_eq.symm
    subst hnil2
    rfl
  · have hnil2 : l2 ≠ [] := by
      intro h2
      rw [h2] at hp
      exact hnil hp.eq_nil
    rw [export_eq_of_ne_nil l1 n1 v1 st hnil]
    simp only [Option.some_bind]
    rw [export_eq_of_ne_nil l2 n2 v2 _ hnil2]
    rw [export_eq_of_ne_nil l2 n2 v2 st hnil2]
    rw [hkey, dset_dset]

/-- C2 witness: the same two bindings inserted in the two possible orders
give the key of a single shared entry. -/
theorem series_key_insertion_order_invariant_witness :
    ([("b", "2"), ("a", "1")] : Labels).Perm [("a", "1"), ("b", "2")] ∧
    (([("b", "2"), ("a", "1")] : Labels).map Prod.fst).Nodup ∧
    (series_key [("b", "2"), ("a", "1")] = series_key [("a", "1"), ("b", "2")] ∧
      (export_to_prometheus [("b", "2"), ("a", "1")] "n1" (PyFloat.num 1 0)
          []).bind
        (fun r =>
          export_to_prometheus [("a", "1"), ("b", "2")] "n2" (PyFloat.num 2 0)
            r.2) =
        export_to_prometheus [("a", "1"), ("b", "2")] "n2" (PyFloat.num 2 0)
          []) :=
  ⟨by decide, by decide,
    series_key_insertion_order_invariant [("b", "2"), ("a", "1")]
      [("a", "1"), ("b", "2")] [] "n1" "n2" (PyFloat.num 1 0) (PyFloat.num 2 0)
      (by decide) (by decide)⟩

/-- Evaluation of `_label_config_match` for a `keep` rule. -/
theorem label_config_match_keep (rm : String → String → Bool)
    (lc : LabelConfig) (labels : Labels) (s : String) (ha : lc.action = "keep")
    (hj : join_source_labels lc labels = some s) :
    label_config_match rm lc labels = some (rm lc.regex s) := by
  unfold label_config_match
  rw [hj]
  simp only [Option.map_some']
  rw [ha]
  simp

/-- Evaluation of `_label_config_match` for a `drop` rule. -/
theorem label_config_match_drop (rm : String → String → Bool)
    (lc : LabelConfig) (labels : Labels) (s : String) (ha : lc.action = "drop")
    (hj : join_source_labels lc labels = some s) :
    label_config_match rm lc labels = some (!(rm lc.regex s)) := by
  unfold label_config_match
  rw [hj]
  simp only [Option.map_some']
  rw [ha]
  simp

/-- Evaluation of `_label_config_match` for an unsupported action. -/
theorem label_config_match_unsupported (rm : String → String → Bool)
    (lc : LabelConfig) (labels : Labels) (s : String)
    (h2 : lc.action ≠ "keep") (h3 : lc.action ≠ "drop")
    (hj : join_source_labels lc labels = some s) :
    label_config_match rm lc labels = some false := by
  unfold label_config_match
  rw [hj]
  simp only [Option.map_some']
  rw [if_neg h2, if_neg h3]

/-- One non-`replace` pipeline step: the remaining rules run exactly when
`_label_config_match` answered true; a false answer stops with the
message rejected and the labels as they stand. -/
theorem apply_label_config_match_step (rm : String → String → Bool)
    (rs : String → String → String → String) (lc : LabelConfig)
    (rest : List LabelConfig) (labels : Labels) (b : Bool)
    (hne : lc.action ≠ "replace")
    (hb : label_config_match rm lc labels = some b) :
    apply_label_config rm rs labels (lc :: rest) =
      (if b then apply_label_config rm rs labels rest
       else some (false, labels)) := by
  conv_lhs => rw [apply_label_config]
  rw [if_neg hne, hb]
  simp only [Option.some_bind]

/-- The pipeline stage of `_update_metrics` with an explicit rule list. -/
theorem pipeline_result_of_configs (rm : String → String → Bool)
    (rs : String → String → String → String) (m : MetricDict) (msg : Msg)
    (lcs : List LabelConfig) (h : m.label_configs = some lcs) :
    pipeline_result rm rs m msg =
      apply_label_config rm rs (initial_labels m msg) lcs := by
  unfold pipeline_result
  rw [h]

/-- C3: with the rule's joined source value `s` in hand (`hj`), a `keep`
rule whose source does not match its regex rejects the whole message
immediately — the result is `(false, labels)` for every tail `rest`, so
no remaining rule is evaluated; a `drop` rule rejects in the same way
exactly when the source does match, and otherwise processing continues
with the next rule; and whenever such a rejection fires at the head of a
metric's rule list, `_update_metrics` leaves the metric dict (its stored
series included) unchanged. -/
theorem keep_drop_rule_semantics (rm : String → String → Bool)
    (rs : String → String → String → String) (lc : LabelConfig)
    (rest : List LabelConfig) (labels : Labels) (s : String)
    (hj : join_source_labels lc labels = some s) :
    (lc.action = "keep" → rm lc.regex s = false →
      apply_label_config rm rs labels (lc :: rest) = some (false, labels)) ∧
    (lc.action = "drop" → rm lc.regex s = true →
      apply_label_config rm rs labels (lc :: rest) = some (false, labels)) ∧
    (lc.action = "drop" → rm lc.regex s = false →
      apply_label_config rm rs labels (lc :: rest) =
        apply_label_config rm rs labels rest) ∧
    (∀ (m : MetricDict) (msg : Msg) (now : ℤ),
      m.label_configs = some (lc :: rest) → initial_labels m msg = labels →
      ((lc.action = "keep" ∧ rm lc.regex s = false) ∨
       (lc.action = "drop" ∧ rm lc.regex s = true)) →
      update_metric rm rs now m msg = some m) := by
  have hkeep : lc.action = "keep" → rm lc.regex s = false →
      apply_label_config rm rs labels (lc :: rest) = some (false, labels) := by
    intro ha hm
    rw [apply_label_config_match_step rm rs lc rest labels (rm lc.regex s)
      (by rw [ha]; decide) (label_config_match_keep rm lc labels s ha hj)]
    rw [hm]
    rfl
  have hdrop : lc.action = "drop" → rm lc.regex s = true →
      apply_label_config rm rs labels (lc :: rest) = some (false, labels) := by
    intro ha hm
    rw [apply_label_config_match_step rm rs lc rest labels (!(rm lc.regex s))
      (by rw [ha]; decide) (label_config_match_drop rm lc labels s ha hj)]
    rw [hm]
    rfl
  refine ⟨hkeep, hdrop, ?_, ?_⟩
  · intro ha hm
    rw [apply_label_config_match_step rm rs lc rest labels (!(rm lc.regex s))
      (by rw [ha]; decide) (label_config_match_drop rm lc labels s ha hj)]
    rw [hm]
    rfl
  · intro m msg now hlc hinit hcase
    have hrej : apply_label_config rm rs labels (lc :: rest) = some (false, labels) := by
      rcases hcase with ⟨ha, hm⟩ | ⟨ha, hm⟩
      · exact hkeep ha hm
      · exact hdrop ha hm
    apply update_metric_of_rejected rm rs now m msg labels
    rw [pipeline_result_of_configs rm rs m msg (lc :: rest) hlc, hinit, hrej]

/-- C3 witness: a keep rule whose regex does not match rejects a concrete
message with the store untouched; a drop rule with a non-matching regex
lets the same message through to the (empty) tail. -/
theorem keep_drop_rule_semantics_witness :
    apply_label_config rmFalse rsId (initial_labels gaugeM msgNum) [keepLC] =
      some (false, initial_labels gaugeM msgNum) ∧
    apply_label_config rmFalse rsId (initial_labels gaugeM msgNum) [dropLC] =
      apply_label_config rmFalse rsId (initial_labels gaugeM msgNum) [] ∧
    update_metric rmFalse rsId 3 { gaugeM with label_configs := some [keepLC] }
        msgNum =
      some { gaugeM with label_configs := some [keepLC] } := by
  refine ⟨?_, ?_, ?_⟩
  · exact (keep_drop_rule_semantics rmFalse rsId keepLC []
      (initial_labels gaugeM msgNum) "21.5" (by decide)).1 rfl rfl
  · exact (keep_drop_rule_semantics rmFalse rsId dropLC []
      (initial_labels gaugeM msgNum) "21.5" (by decide)).2.2.1 rfl rfl
  · exact (keep_drop_rule_semantics rmFalse rsId keepLC []
      (initial_labels { gaugeM with label_configs := some [keepLC] } msgNum)
      "21.5" (by decide)).2.2.2
      { gaugeM with label_configs := some [keepLC] } msgNum 3 rfl rfl
      (Or.inl ⟨rfl, rfl⟩)

/-- C5: a `replace` rule never causes rejection — the pipeline always
continues with the remaining rules; the labels it continues with have
`target_label` set to the regex substitution of the joined source value
exactly when that value matches the rule's regex, and are the incoming
labels, binding for binding, when it does not. -/
theorem replace_rule_never_rejects (rm : String → String → Bool)
    (rs : String → String → String → String) (lc : LabelConfig)
    (rest : List LabelConfig) (labels : Labels) (s : String)
    (ha : lc.action = "replace") (hj : join_source_labels lc labels = some s) :
    apply_label_config rm rs labels (lc :: rest) =
      apply_label_config rm rs
        (if rm lc.regex s then
          dset labels lc.target_label (rs lc.regex lc.replacement s)
         else labels) rest := by
  conv_lhs => rw [apply_label_config]
  rw [if_pos ha]
  unfold label_config_rename
  rw [hj]
  simp only [Option.map_some', Option.some_bind]

/-- C5 witness: with a never-matching regex semantics the replace rule
leaves a concrete label set untouched and the pipeline still accepts. -/
theorem replace_rule_never_rejects_witness :
    apply_label_config rmFalse rsId (initial_labels gaugeM msgNum) [replLC] =
      apply_label_config rmFalse rsId (initial_labels gaugeM msgNum) [] := by
  have h := replace_rule_never_rejects rmFalse rsId replLC []
    (initial_labels gaugeM msgNum) "home/kitchen/temp" rfl (by decide)
  simpa using h

/-- C6: a rule whose action is none of replace, keep, drop rejects the
message immediately: the result is `(false, labels)` for every tail
`rest` (no remaining rule is processed), and when such a rule heads a
metric's rule list, `_update_metrics` leaves the metric dict (its stored
series included) unchanged. -/
theorem unsupported_action_rejects (rm : String → String → Bool)
    (rs : String → String → String → String) (lc : LabelConfig)
    (rest : List LabelConfig) (labels : Labels) (s : String)
    (hj : join_source_labels lc labels = some s)
    (h1 : lc.action ≠ "replace") (h2 : lc.action ≠ "keep")
    (h3 : lc.action ≠ "drop") :
    apply_label_config rm rs labels (lc :: rest) = some (false, labels) ∧
    (∀ (m : MetricDict) (msg : Msg) (now : ℤ),
      m.label_configs = some (lc :: rest) → initial_labels m msg = labels →
      update_metric rm rs now m msg = some m) := by
  have hrej : apply_label_config rm rs labels (lc :: rest) = some (false, labels) := by
    rw [apply_label_config_match_step rm rs lc rest labels false h1
      (label_config_match_unsupported rm lc labels s h2 h3 hj)]
    rfl
  refine ⟨hrej, ?_⟩
  intro m msg now hlc hinit
  apply update_metric_of_rejected rm rs now m msg labels
  rw [pipeline_result_of_configs rm rs m msg (lc :: rest) hlc, hinit, hrej]

/-- C6 witness: a concrete `labelmap` rule rejects a concrete message and
leaves the metric dict unchanged. -/
theorem unsupported_action_rejects_witness :
    apply_label_config rmTrue rsId (initial_labels gaugeM msgNum) [unsupLC] =
      some (false, initial_labels gaugeM msgNum) ∧
    update_metric rmTrue rsId 3
        { gaugeM with label_configs := some [unsupLC] } msgNum =
      some { gaugeM with label_configs := some [unsupLC] } := by
  have h := unsupported_action_rejects rmTrue rsId unsupLC []
    (initial_labels { gaugeM with label_configs := some [unsupLC] } msgNum)
    "21.5" (by decide) (by decide) (by decide) (by decide)
  exact ⟨h.1, h.2 { gaugeM with label_configs := some [unsupLC] } msgNum 3 rfl rfl⟩

/-- C4: when the pipeline accepted the message (`hp`) but the final
`__value__` label, after comma-to-dot normalisation, does not parse as a
number (`hn`), `_update_metrics` skips the metric with a logged warning:
the metric dict — its stored series and its derived last-received sibling
included — is returned unchanged, and no exception escapes. -/
theorem nonnumeric_value_rejected (rm : String → String → Bool)
    (rs : String → String → String → String) (now : ℤ) (m : MetricDict)
    (msg : Msg) (labels1 : Labels) (raw : String)
    (hp : pipeline_result rm rs m msg = some (true, labels1))
    (hv : dget labels1 "__value__" = some raw)
    (hn : pythonFloat (comma_to_dot raw) = none) :
    update_metric rm rs now m msg = some m := by
  unfold update_metric
  rw [hp]
  simp [hv, hn]

/-- C4 witness: publishing the non-numeric payload `warm` on a matched
topic leaves the metric definition, its store and its derived metric
untouched. -/
theorem nonnumeric_value_rejected_witness :
    pipeline_result rmTrue rsId gaugeM msgWarm =
        some (true, initial_labels gaugeM msgWarm) ∧
    dget (initial_labels gaugeM msgWarm) "__value__" = some "warm" ∧
    pythonFloat (comma_to_dot "warm") = none ∧
    update_metric rmTrue rsId 3 gaugeM msgWarm = some gaugeM :=
  ⟨by decide, by decide, by decide,
    nonnumeric_value_rejected rmTrue rsId 3 gaugeM msgWarm
      (initial_labels gaugeM msgWarm) "warm" (by decide) (by decide) (by decide)⟩

/-- C7: on every successful update (pipeline accepted, value parsed) the
metric's derived sibling is present afterwards and its store was upserted
at the key of the label set `{topic: configured topic pattern}` with the
entry `(its name, [topic pattern], now)` — the epoch-millisecond
timestamp; the sibling's other fields are those it already had, or, on
the first successful update (`m.derived_metric = none`), those of the
lazily created definition: name `<name>_last_received`, type `gauge`,
empty store. -/
theorem derived_last_received_upsert (rm : String → String → Bool)
    (rs : String → String → String → String) (now : ℤ) (m : MetricDict)
    (msg : Msg) (labels1 : Labels) (raw : String) (v : PyFloat)
    (hp : pipeline_result rm rs m msg = some (true, labels1))
    (hv : dget labels1 "__value__" = some raw)
    (hf : pythonFloat (comma_to_dot raw) = some v) :
    (update_metric rm rs now m msg).bind (fun m2 => m2.derived_metric) =
      some { m.derived_metric.getD (derived_default m) with
             label_names := some ["topic"],
             prometheus_metric :=
               dset (m.derived_metric.getD (derived_default m)).prometheus_metric
                 (series_key [("topic", m.topic)])
                 { name := (m.derived_metric.getD (derived_default m)).name,
                   label_values := [m.topic], value := PyFloat.num now 0 } } ∧
    (m.derived_metric = none →
      (m.derived_metric.getD (derived_default m)).name =
          m.name ++ "_last_received" ∧
      (m.derived_metric.getD (derived_default m)).type = "gauge" ∧
      (m.derived_metric.getD (derived_default m)).prometheus_metric = []) := by
  constructor
  · unfold update_metric
    rw [hp]
    simp only [Option.some_bind, hv, hf]
    rw [export_eq_of_ne_nil (export_labels labels1) m.name v m.prometheus_metric
      (export_labels_ne_nil labels1)]
    rw [export_eq_of_ne_nil [("topic", m.topic)] _ _ _
      (List.cons_ne_nil ("topic", m.topic) [])]
    simp [get_sorted_tuple_list, List.insertionSort, List.orderedInsert]
  · intro h
    rw [h]
    exact ⟨rfl, rfl, rfl⟩

/-- C7 witness: a first successful update of `gaugeM` (payload `21.5`,
time 99) creates the `temp_last_received` gauge and stores the timestamp
under the key of `{topic: "home/+/temp"}`. -/
theorem derived_last_received_upsert_witness :
    (update_metric rmTrue rsId 99 gaugeM msgNum).bind
        (fun m2 => m2.derived_metric) =
      some { gaugeM.derived_metric.getD (derived_default gaugeM) with
             label_names := some ["topic"],
             prometheus_metric :=
               dset (gaugeM.derived_metric.getD
                   (derived_default gaugeM)).prometheus_metric
                 (series_key [("topic", gaugeM.topic)])
                 { name := (gaugeM.derived_metric.getD
                     (derived_default gaugeM)).name,
                   label_values := [gaugeM.topic],
                   value := PyFloat.num 99 0 } } ∧
    (gaugeM.derived_metric = none →
      (gaugeM.derived_metric.getD (derived_default gaugeM)).name =
          gaugeM.name ++ "_last_received" ∧
      (gaugeM.derived_metric.getD (derived_default gaugeM)).type = "gauge" ∧
      (gaugeM.derived_metric.getD (derived_default gaugeM)).prometheus_metric =
          []) :=
  derived_last_received_upsert rmTrue rsId 99 gaugeM msgNum
    (initial_labels gaugeM msgNum) "21.5" (PyFloat.num 215 (-1))
    (by decide) (by decide) (by decide)
